import Mathlib

/-!
Shallow embedding of the zk-crowdfund contract
(src/contracts/zk-crowdfund/src/contract.rs and
src/contracts/zk-crowdfund/src/zk_compute.rs).

Addresses are modelled as naturals, u128 amounts as naturals (no u128
arithmetic in the contract can overflow: the only multiplication is a
u32 value times 10^12, far below 2^128), u32 values as naturals reduced
modulo 2^32 where the source wraps.  Rust panics / asserts are modelled
as `Except.error`, so a failing entry point produces no successor state.
-/

/-- Blockchain addresses, abstracted to naturals. -/
abbrev Address := Nat

/-- Metadata attached to each secret variable (enum SecretVarType). -/
inductive SecretVarType where
  | Contribution (owner : Address) (timestamp : Int)
  | SumResult
  | RefundProof (owner : Address)
deriving DecidableEq

/-- Campaign status (enum CampaignStatus). -/
inductive CampaignStatus where
  | Active
  | Computing
  | Completed
deriving DecidableEq

/-- The contract's public state (struct ContractState). -/
structure ContractState where
  owner : Address
  title : String
  description : String
  token_address : Address
  funding_target : Nat
  status : CampaignStatus
  total_raised : Option Nat
  num_contributors : Option Nat
  is_successful : Bool
deriving DecidableEq

/-- Status of the external computation engine (CalculationStatus). -/
inductive CalculationStatus where
  | Waiting
  | Calculating
deriving DecidableEq

/-- A secret variable as seen by the contract: its metadata and, once
declassified, its plaintext byte payload (ZkClosed). -/
structure ZkClosed where
  metadata : SecretVarType
  data : Option (List Nat)
deriving DecidableEq

/-- The zk engine state visible to the contract: calculation status and
the id-indexed collection of secret variables (ZkState). -/
structure ZkState where
  calculation_state : CalculationStatus
  secret_variables : List (Nat × ZkClosed)
deriving DecidableEq

/-- Lookup of a secret variable by id (ZkState::get_variable). -/
def ZkState.get_variable (zk : ZkState) (id : Nat) : Option ZkClosed :=
  (zk.secret_variables.find? (fun p => p.1 == id)).map (fun p => p.2)

/-- One argument of an external token-contract call. -/
inductive CallArg where
  | addr (a : Address)
  | amountArg (n : Nat)
deriving DecidableEq

/-- One interaction sent to an external contract: destination address,
shortname, and the serialized arguments. -/
structure TokenCall where
  dest : Address
  shortname : Nat
  args : List CallArg
deriving DecidableEq

/-- A callback registration attached to an event group. -/
structure CallbackDef where
  shortname : Nat
  args : List CallArg
deriving DecidableEq

/-- An event group: external calls plus an optional callback. -/
structure EventGroup where
  calls : List TokenCall
  callback : Option CallbackDef
deriving DecidableEq

/-- A zk state change requested by the contract (ZkStateChange). -/
inductive ZkStateChange where
  | startComputation (functionShortname : Nat)
      (outputMetadata : List SecretVarType) (onComplete : Option Nat)
  | openVariables (vars : List Nat)
deriving DecidableEq

/-- A secret-input definition returned by add_contribution (ZkInputDef). -/
structure ZkInputDef where
  onInputted : Option Nat
  metadata : SecretVarType
deriving DecidableEq

/-- Bool test for Contribution metadata, matching the
`matches!(var.metadata, SecretVarType::Contribution { .. })` filters. -/
def isContribution : SecretVarType → Bool
  | SecretVarType.Contribution _ _ => true
  | _ => false

/-- Number of committed Contribution variables in the zk state, as
counted by end_campaign and open_variables. -/
def countContributions (zk : ZkState) : Nat :=
  (zk.secret_variables.filter (fun p => isContribution p.2.metadata)).length

/-! ### The MPC computation (zk_compute.rs) -/

/-- A secret variable as seen inside the MPC computation: metadata plus
the secret u32 value. -/
structure MpcVar where
  metadata : SecretVarType
  value : Nat
deriving DecidableEq

/-- Metadata discriminant, as read by `load_metadata::<u8>` inside the
computation (Contribution = 0, SumResult = 1, RefundProof = 2). -/
def load_metadata_kind : SecretVarType → Nat
  | SecretVarType.Contribution _ _ => 0
  | SecretVarType.SumResult => 1
  | SecretVarType.RefundProof _ => 2

/-- Sum of all Contribution-tagged secret values, with wrapping u32
addition (Sbu32 arithmetic). -/
def sumContributions (vars : List MpcVar) : Nat :=
  vars.foldl
    (fun acc v =>
      if load_metadata_kind v.metadata = 0 then
        (acc + v.value % 4294967296) % 4294967296
      else acc)
    0

/-- The funding target used inside the computation
(fn load_funding_target_from_metadata): a hardcoded placeholder. -/
def load_funding_target_from_metadata : Nat := 1000

/-- The MPC function (fn threshold_check_and_conditional_reveal):
returns the triple (funding_target copy, threshold_met, conditional_total). -/
def threshold_check_and_conditional_reveal (vars : List MpcVar) : Nat × Nat × Nat :=
  (load_funding_target_from_metadata,
   if load_funding_target_from_metadata ≤ sumContributions vars then 1 else 0,
   if load_funding_target_from_metadata ≤ sumContributions vars then sumContributions vars else 0)

/-! ### Contract entry points (contract.rs) -/

/-- Embedding of the contract init entry point (fn initialize). -/
def initState (sender : Address) (title description : String)
    (token_address : Address) (funding_target : Nat) : Except String ContractState :=
  if title = "" then Except.error "Title cannot be empty"
  else if description = "" then Except.error "Description cannot be empty"
  else if funding_target = 0 then Except.error "Funding target must be greater than 0"
  else Except.ok
    { owner := sender, title := title, description := description,
      token_address := token_address, funding_target := funding_target,
      status := CampaignStatus.Active, total_raised := none,
      num_contributors := none, is_successful := false }

/-- Embedding of fn add_contribution (zk_on_secret_input 0x40). -/
def add_contribution (sender : Address) (block_production_time : Int)
    (state : ContractState) :
    Except String (ContractState × List EventGroup × ZkInputDef) :=
  if state.status = CampaignStatus.Active then
    Except.ok (state, [],
      { onInputted := some 0x41,
        metadata := SecretVarType.Contribution sender block_production_time })
  else Except.error "Contributions can only be made when campaign is active"

/-- Embedding of fn contribute_tokens (action 0x07).  Note that the zk
state argument is received but never inspected, exactly as in the source
(`_zk_state`). -/
def contribute_tokens (sender contract_address : Address)
    (state : ContractState) (_zk_state : ZkState) (amount : Nat) :
    Except String (ContractState × List EventGroup) :=
  if state.status = CampaignStatus.Active then
    if 0 < amount then
      Except.ok (state,
        [{ calls := [{ dest := state.token_address, shortname := 0x03,
                       args := [CallArg.addr sender, CallArg.addr contract_address,
                                CallArg.amountArg amount] }],
           callback := some { shortname := 0x31, args := [CallArg.amountArg amount] } }])
    else Except.error "Contribution amount must be greater than 0"
  else Except.error "Contributions can only be made when campaign is active"

/-- Embedding of fn contribute_callback (callback 0x31). -/
def contribute_callback (success : Bool) (state : ContractState) (_amount : Nat) :
    Except String ContractState :=
  if success then Except.ok state else Except.error "Token transfer failed"

/-- Embedding of fn inputted_variable (zk_on_variable_inputted 0x41). -/
def inputted_variable (state : ContractState) (_inputted : Nat) : ContractState :=
  state

/-- Embedding of fn end_campaign (action 0x01). -/
def end_campaign (sender : Address) (state : ContractState) (zk_state : ZkState) :
    Except String (ContractState × List EventGroup × List ZkStateChange) :=
  if sender = state.owner then
    if state.status = CampaignStatus.Active then
      if zk_state.calculation_state = CalculationStatus.Waiting then
        if 0 < countContributions zk_state then
          Except.ok
            ({ state with status := CampaignStatus.Computing,
                          num_contributors := some (countContributions zk_state) },
             [],
             [ZkStateChange.startComputation 0x61 [SecretVarType.SumResult] (some 0x42)])
        else Except.error "At least one contributor is needed before ending the campaign"
      else Except.error "Computation must start from Waiting state"
    else Except.error "Campaign can only be ended from Active state"
  else Except.error "Only owner can end the campaign"

/-- Embedding of fn sum_compute_complete (zk_on_compute_complete 0x42):
opens every output variable of the computation. -/
def sum_compute_complete (state : ContractState) (output_variables : List Nat) :
    ContractState × List EventGroup × List ZkStateChange :=
  (state, [], [ZkStateChange.openVariables output_variables])

/-- Embedding of fn read_variable_u32_le: `copy_from_slice` into a 4-byte
buffer, which panics when the payload length differs from 4, and
`data.as_ref().unwrap()`, which panics on a missing payload. -/
def leBytesToNat : List Nat → Nat
  | [] => 0
  | b :: rest => b + 256 * leBytesToNat rest

/-- Reads a declassified variable's payload as a little-endian u32,
with the source's panic behaviour modelled as errors. -/
def read_variable_u32_le (v : ZkClosed) : Except String Nat :=
  match v.data with
  | none => Except.error "called unwrap on a None value"
  | some bytes =>
    if bytes.length = 4 then Except.ok (leBytesToNat bytes)
    else Except.error "copy_from_slice: source slice length does not match destination slice length"

/-- Embedding of fn open_variables (zk_on_variables_opened). -/
def open_variables (state : ContractState) (zk_state : ZkState)
    (opened_variables : List Nat) :
    Except String (ContractState × List EventGroup × List ZkStateChange) :=
  match opened_variables with
  | [] => Except.error "No opened variables to process"
  | var_id :: _ =>
    match zk_state.get_variable var_id with
    | none => Except.error "called unwrap on a None value"
    | some opened_variable =>
      match opened_variable.metadata with
      | SecretVarType.SumResult =>
        match read_variable_u32_le opened_variable with
        | Except.error e => Except.error e
        | Except.ok total_raised =>
          Except.ok
            ({ state with
                total_raised :=
                  if state.funding_target ≤ total_raised then some total_raised else none,
                num_contributors := some (countContributions zk_state),
                is_successful := decide (state.funding_target ≤ total_raised),
                status := CampaignStatus.Completed },
             [], [])
      | SecretVarType.RefundProof o =>
        if state.status = CampaignStatus.Completed ∧ state.is_successful = false then
          match read_variable_u32_le opened_variable with
          | Except.error e => Except.error e
          | Except.ok refund_amount =>
            if 0 < refund_amount then
              Except.ok (state,
                [{ calls := [{ dest := state.token_address, shortname := 0x01,
                               args := [CallArg.addr o,
                                        CallArg.amountArg (refund_amount * 1000000000000)] }],
                   callback := some { shortname := 0x44,
                                      args := [CallArg.addr o,
                                               CallArg.amountArg (refund_amount * 1000000000000)] } }],
                [])
            else Except.error "Refund amount must be greater than 0"
        else Except.ok (state, [], [])
      | SecretVarType.Contribution _ _ => Except.ok (state, [], [])

/-- Embedding of fn refund_proof_complete (zk_on_compute_complete 0x43). -/
def refund_proof_complete (state : ContractState) (output_variables : List Nat) :
    Except String (ContractState × List EventGroup × List ZkStateChange) :=
  if output_variables.isEmpty then
    Except.error "No output variables from refund computation"
  else Except.ok (state, [], [ZkStateChange.openVariables output_variables])

/-- Embedding of fn withdraw_funds (action 0x04). -/
def withdraw_funds (sender : Address) (state : ContractState) :
    Except String (ContractState × List EventGroup) :=
  if sender = state.owner then
    if state.status = CampaignStatus.Completed then
      if state.is_successful then
        Except.ok (state,
          [{ calls := [{ dest := state.token_address, shortname := 0x01,
                         args := [CallArg.addr state.owner,
                                  CallArg.amountArg (state.total_raised.getD 0)] }],
             callback := none }])
      else Except.error "Cannot withdraw funds from unsuccessful campaign"
    else Except.error "Campaign must be completed before withdrawing"
  else Except.error "Only the owner can withdraw funds"

/-- Embedding of fn claim_refund (action 0x06). -/
def claim_refund (sender : Address) (state : ContractState) (zk_state : ZkState) :
    Except String (ContractState × List EventGroup × List ZkStateChange) :=
  if state.status = CampaignStatus.Completed then
    if state.is_successful = false then
      if zk_state.calculation_state = CalculationStatus.Waiting then
        if ((zk_state.secret_variables.filter
              (fun p => isContribution p.2.metadata)).map (fun p => p.1)).isEmpty then
          Except.error "No contributions found in the contract"
        else
          Except.ok (state, [],
            [ZkStateChange.startComputation 0x62
              [SecretVarType.RefundProof sender] (some 0x43)])
      else Except.error "Computation must start from Waiting state"
    else Except.error "Cannot claim refund from successful campaign"
  else Except.error "Campaign must be completed before claiming refund"

/-- Embedding of fn refund_callback (callback 0x44). -/
def refund_callback (success : Bool) (state : ContractState)
    (_recipient : Address) (_amount : Nat) : Except String ContractState :=
  if success then Except.ok state else Except.error "Token refund transfer failed"

/-! ### Concrete fixtures used by witnesses and counterexamples -/

/-- An active campaign with owner 0, token contract 9, target 90. -/
def stateActive0 : ContractState :=
  { owner := 0, title := "t", description := "d", token_address := 9,
    funding_target := 90, status := CampaignStatus.Active,
    total_raised := none, num_contributors := none, is_successful := false }

/-- A campaign whose computation is in flight. -/
def stateComputing0 : ContractState :=
  { stateActive0 with status := CampaignStatus.Computing, num_contributors := some 1 }

/-- A completed, successful campaign with revealed total 100. -/
def stateCompletedOk : ContractState :=
  { stateActive0 with
    status := CampaignStatus.Completed
    total_raised := some 100
    num_contributors := some 3
    is_successful := true }

/-- A completed, failed campaign with hidden total. -/
def stateFailed0 : ContractState :=
  { stateActive0 with
    funding_target := 50
    status := CampaignStatus.Completed
    num_contributors := some 1 }

/-- A zk state with no secret variables, engine idle. -/
def zkEmptyWaiting : ZkState := { calculation_state := CalculationStatus.Waiting, secret_variables := [] }

/-- A zk state holding one committed contribution owned by address 3. -/
def zkOneContribution : ZkState :=
  { calculation_state := CalculationStatus.Waiting,
    secret_variables := [(1, { metadata := SecretVarType.Contribution 3 0, data := none })] }

/-- A zk state holding one declassified refund proof for address 3 with value 5. -/
def zkRefundVar : ZkState :=
  { calculation_state := CalculationStatus.Waiting,
    secret_variables := [(2, { metadata := SecretVarType.RefundProof 3, data := some [5, 0, 0, 0] })] }

/-- A declassified sum-result variable whose payload has only 3 bytes. -/
def shortPayloadVar : ZkClosed :=
  { metadata := SecretVarType.SumResult, data := some [1, 2, 3] }

/-- A zk state holding the malformed declassified sum result. -/
def zkShortPayload : ZkState :=
  { calculation_state := CalculationStatus.Waiting, secret_variables := [(1, shortPayloadVar)] }

/-! ### Claim theorems -/

/-- C1: the MPC threshold check ignores the campaign-supplied funding
target.  With a single contribution of 90 and campaign target 90 the sum
meets the target (90 >= 90), yet the computation outputs
threshold_met = 0 and conditional_total = 0, because it compares against
the hardcoded placeholder 1000 of load_funding_target_from_metadata. -/
theorem C1_threshold_ignores_campaign_target :
    threshold_check_and_conditional_reveal [{ metadata := SecretVarType.Contribution 1 0, value := 90 }] =
      (1000, 0, 0) ∧ (90 : Nat) ≥ 90 :=
  ⟨rfl, by decide⟩

/-- C3: withdraw_funds on a completed successful campaign succeeds and
returns the state unchanged (there is no funds_withdrawn guard in
ContractState), so a second withdraw_funds call on the resulting state
succeeds as well, issuing the transfer twice. -/
theorem C3_double_withdrawal_succeeds :
    withdraw_funds 0 stateCompletedOk =
      Except.ok (stateCompletedOk,
        [{ calls := [{ dest := 9, shortname := 0x01,
                       args := [CallArg.addr 0, CallArg.amountArg 100] }],
           callback := none }]) ∧
    (withdraw_funds 0 stateCompletedOk).bind
        (fun r => Except.map (fun r2 => r2.1) (withdraw_funds 0 r.1)) =
      Except.ok stateCompletedOk :=
  ⟨rfl, rfl⟩

/-- C4 counterexample: the compute-complete callback opens all three
output handles in one request, not only output_handles[0]. -/
theorem C4_cex_opens_all_outputs :
    sum_compute_complete stateComputing0 [10, 11, 12] =
      (stateComputing0, [], [ZkStateChange.openVariables [10, 11, 12]]) ∧
    [ZkStateChange.openVariables [10, 11, 12]] ≠ [ZkStateChange.openVariables [10]] :=
  ⟨rfl, by decide⟩

/-- C4 amended: sum_compute_complete requests declassification of every
output variable of the computation at once, leaving the state unchanged
and emitting no events. -/
theorem C4_amended_opens_every_output (s : ContractState) (outs : List Nat) :
    sum_compute_complete s outs = (s, [], [ZkStateChange.openVariables outs]) :=
  rfl

/-- C5 counterexample: end_campaign declares a single SumResult metadata
entry (length 1, not 3), and the computation's first output is the
funding-target copy (1000), not the threshold flag: on one contribution
of 2000 the output triple is (1000, 1, 2000), not (1, 2000, 2000). -/
theorem C5_cex_metadata_and_output_order :
    end_campaign 0 stateActive0 zkOneContribution =
      Except.ok ({ stateActive0 with
                     status := CampaignStatus.Computing
                     num_contributors := some 1 }, [],
        [ZkStateChange.startComputation 0x61 [SecretVarType.SumResult] (some 0x42)]) ∧
    [SecretVarType.SumResult].length ≠ 3 ∧
    threshold_check_and_conditional_reveal [{ metadata := SecretVarType.Contribution 1 0, value := 2000 }] =
      (1000, 1, 2000) ∧
    ((1000 : Nat), (1 : Nat), (2000 : Nat)) ≠ ((1 : Nat), (2000 : Nat), (2000 : Nat)) :=
  ⟨rfl, by decide, rfl, by decide⟩

/-- C5 amended: the computation produces three outputs in the order
(funding-target copy, threshold_met, conditional_total), and end_campaign
starts it with a single SumResult metadata entry for the outputs. -/
theorem C5_amended_single_metadata_and_output_order :
    (∀ (c : Address) (s : ContractState) (zk : ZkState),
      c = s.owner → s.status = CampaignStatus.Active →
      zk.calculation_state = CalculationStatus.Waiting →
      0 < countContributions zk →
      end_campaign c s zk =
        Except.ok ({ s with
                       status := CampaignStatus.Computing
                       num_contributors := some (countContributions zk) }, [],
          [ZkStateChange.startComputation 0x61 [SecretVarType.SumResult] (some 0x42)])) ∧
    (∀ vars : List MpcVar,
      threshold_check_and_conditional_reveal vars =
        (load_funding_target_from_metadata,
         if load_funding_target_from_metadata ≤ sumContributions vars then 1 else 0,
         if load_funding_target_from_metadata ≤ sumContributions vars then sumContributions vars else 0)) := by
  constructor
  · intro c s zk h1 h2 h3 h4
    unfold end_campaign
    rw [if_pos h1, if_pos h2, if_pos h3, if_pos h4]
  · intro vars
    rfl

/-- C5 witness: the amended statement applied to the concrete active
campaign with one contribution, and to the empty contribution list. -/
theorem C5_amended_witness :
    end_campaign 0 stateActive0 zkOneContribution =
      Except.ok ({ stateActive0 with
                     status := CampaignStatus.Computing
                     num_contributors := some (countContributions zkOneContribution) }, [],
        [ZkStateChange.startComputation 0x61 [SecretVarType.SumResult] (some 0x42)]) ∧
    threshold_check_and_conditional_reveal [] = (1000, 0, 0) :=
  ⟨C5_amended_single_metadata_and_output_order.1 0 stateActive0 zkOneContribution rfl rfl rfl
      (by decide),
   (C5_amended_single_metadata_and_output_order.2 []).trans (by decide)⟩

/-- C6 counterexample: end_campaign by the owner on an active campaign
with zero committed contributions fails with a precondition error; it
does not short-circuit to Completed. -/
theorem C6_cex_zero_contributions_rejected :
    end_campaign 0 stateActive0 zkEmptyWaiting =
      Except.error "At least one contributor is needed before ending the campaign" :=
  rfl

/-- C6 amended: end_campaign called by the owner while Active with the
engine idle and zero committed Contribution variables fails with the
at-least-one-contributor precondition error, so the state is unchanged
and no computation starts. -/
theorem C6_amended_zero_contributions_error (c : Address) (s : ContractState)
    (zk : ZkState) (h1 : c = s.owner) (h2 : s.status = CampaignStatus.Active)
    (h3 : zk.calculation_state = CalculationStatus.Waiting)
    (h4 : countContributions zk = 0) :
    end_campaign c s zk =
      Except.error "At least one contributor is needed before ending the campaign" := by
  unfold end_campaign
  rw [if_pos h1, if_pos h2, if_pos h3, if_neg (by omega)]

/-- C6 witness: the amended statement at the concrete empty campaign. -/
theorem C6_amended_witness :
    end_campaign 0 stateActive0 zkEmptyWaiting =
      Except.error "At least one contributor is needed before ending the campaign" :=
  C6_amended_zero_contributions_error 0 stateActive0 zkEmptyWaiting rfl rfl rfl rfl

/-- C7 counterexample: caller 5 has no Contribution commitment at all
(the zk state is empty), the campaign is Active and the amount is 1, yet
contribute_tokens succeeds and issues the transferFrom call. -/
theorem C7_cex_no_commitment_required :
    countContributions zkEmptyWaiting = 0 ∧
    contribute_tokens 5 99 stateActive0 zkEmptyWaiting 1 =
      Except.ok (stateActive0,
        [{ calls := [{ dest := 9, shortname := 0x03,
                       args := [CallArg.addr 5, CallArg.addr 99, CallArg.amountArg 1] }],
           callback := some { shortname := 0x31, args := [CallArg.amountArg 1] } }]) :=
  ⟨rfl, rfl⟩

/-- C7 amended: contribute_tokens checks only status == Active and
amount > 0; it never scans the secret variables for a commitment owned
by the caller (the zk state argument is ignored), and on success issues
transferFrom(caller -> contract, amount) with a callback carrying the
amount. -/
theorem C7_amended_no_commitment_scan :
    (∀ (c ca : Address) (s : ContractState) (zk : ZkState) (a : Nat),
      s.status = CampaignStatus.Active → 0 < a →
      contribute_tokens c ca s zk a =
        Except.ok (s,
          [{ calls := [{ dest := s.token_address, shortname := 0x03,
                         args := [CallArg.addr c, CallArg.addr ca, CallArg.amountArg a] }],
             callback := some { shortname := 0x31, args := [CallArg.amountArg a] } }])) ∧
    (∀ (c ca : Address) (s : ContractState) (zk : ZkState) (a : Nat),
      s.status ≠ CampaignStatus.Active →
      contribute_tokens c ca s zk a =
        Except.error "Contributions can only be made when campaign is active") ∧
    (∀ (c ca : Address) (s : ContractState) (zk : ZkState),
      s.status = CampaignStatus.Active →
      contribute_tokens c ca s zk 0 =
        Except.error "Contribution amount must be greater than 0") := by
  refine ⟨?_, ?_, ?_⟩
  · intro c ca s zk a h1 h2
    unfold contribute_tokens
    rw [if_pos h1, if_pos h2]
  · intro c ca s zk a h1
    unfold contribute_tokens
    rw [if_neg h1]
  · intro c ca s zk h1
    unfold contribute_tokens
    rw [if_pos h1, if_neg (by omega)]

/-- C7 witness: the amended statement at concrete inputs for all three
conjuncts. -/
theorem C7_amended_witness :
    contribute_tokens 5 99 stateActive0 zkEmptyWaiting 1 =
      Except.ok (stateActive0,
        [{ calls := [{ dest := stateActive0.token_address, shortname := 0x03,
                       args := [CallArg.addr 5, CallArg.addr 99, CallArg.amountArg 1] }],
           callback := some { shortname := 0x31, args := [CallArg.amountArg 1] } }]) ∧
    contribute_tokens 5 99 stateCompletedOk zkEmptyWaiting 1 =
      Except.error "Contributions can only be made when campaign is active" ∧
    contribute_tokens 5 99 stateActive0 zkEmptyWaiting 0 =
      Except.error "Contribution amount must be greater than 0" :=
  ⟨C7_amended_no_commitment_scan.1 5 99 stateActive0 zkEmptyWaiting 1 rfl (by decide),
   C7_amended_no_commitment_scan.2.1 5 99 stateCompletedOk zkEmptyWaiting 1 (by decide),
   C7_amended_no_commitment_scan.2.2 5 99 stateActive0 zkEmptyWaiting rfl⟩

/-- C8: a declassified payload of only 3 bytes makes read_variable_u32_le
fail (the source's copy_from_slice panics on a length mismatch), and the
error propagates through open_variables, so a malformed MPC result
aborts the callback instead of being treated as total 0. -/
theorem C8_short_payload_decode_fails :
    read_variable_u32_le shortPayloadVar =
      Except.error "copy_from_slice: source slice length does not match destination slice length" ∧
    open_variables stateComputing0 zkShortPayload [1] =
      Except.error "copy_from_slice: source slice length does not match destination slice length" :=
  ⟨rfl, rfl⟩

/-! ### Transition system over the public contract state

Every entry point and callback of the contract, with its non-state
parameters (caller, zk engine state, opened ids, callback outcomes)
existentially quantified, induces one step of the public state. -/

/-- One successful invocation of any contract entry point or callback. -/
inductive Step : ContractState → ContractState → Prop where
  | add_contribution_step (c : Address) (t : Int) (s s2 : ContractState)
      (evs : List EventGroup) (d : ZkInputDef) :
      add_contribution c t s = Except.ok (s2, evs, d) → Step s s2
  | contribute_tokens_step (c ca : Address) (s : ContractState) (zk : ZkState)
      (a : Nat) (s2 : ContractState) (evs : List EventGroup) :
      contribute_tokens c ca s zk a = Except.ok (s2, evs) → Step s s2
  | contribute_callback_step (ok : Bool) (a : Nat) (s s2 : ContractState) :
      contribute_callback ok s a = Except.ok s2 → Step s s2
  | inputted_variable_step (s : ContractState) (v : Nat) (s2 : ContractState) :
      inputted_variable s v = s2 → Step s s2
  | end_campaign_step (c : Address) (s : ContractState) (zk : ZkState)
      (s2 : ContractState) (evs : List EventGroup) (chs : List ZkStateChange) :
      end_campaign c s zk = Except.ok (s2, evs, chs) → Step s s2
  | sum_compute_complete_step (s : ContractState) (outs : List Nat)
      (s2 : ContractState) (evs : List EventGroup) (chs : List ZkStateChange) :
      sum_compute_complete s outs = (s2, evs, chs) → Step s s2
  | open_variables_step (s : ContractState) (zk : ZkState) (opened : List Nat)
      (s2 : ContractState) (evs : List EventGroup) (chs : List ZkStateChange) :
      open_variables s zk opened = Except.ok (s2, evs, chs) → Step s s2
  | refund_proof_complete_step (s : ContractState) (outs : List Nat)
      (s2 : ContractState) (evs : List EventGroup) (chs : List ZkStateChange) :
      refund_proof_complete s outs = Except.ok (s2, evs, chs) → Step s s2
  | withdraw_funds_step (c : Address) (s s2 : ContractState) (evs : List EventGroup) :
      withdraw_funds c s = Except.ok (s2, evs) → Step s s2
  | claim_refund_step (c : Address) (s : ContractState) (zk : ZkState)
      (s2 : ContractState) (evs : List EventGroup) (chs : List ZkStateChange) :
      claim_refund c s zk = Except.ok (s2, evs, chs) → Step s s2
  | refund_callback_step (ok : Bool) (r : Address) (a : Nat) (s s2 : ContractState) :
      refund_callback ok s r a = Except.ok s2 → Step s s2

/-- A state is reachable when some initialization produces a start state
from which finitely many successful invocations lead to it. -/
def Reachable (s : ContractState) : Prop :=
  ∃ (sender : Address) (title description : String) (tok : Address) (target : Nat)
    (s0 : ContractState),
    initState sender title description tok target = Except.ok s0 ∧
    Relation.ReflTransGen Step s0 s

/-! ### Characterization lemmas for the entry points -/

theorem initState_ok_fields {c : Address} {t d : String} {tok target : Nat}
    {s0 : ContractState} (h : initState c t d tok target = Except.ok s0) :
    s0.total_raised = none ∧ s0.is_successful = false ∧
    s0.status = CampaignStatus.Active := by
  unfold initState at h
  split at h
  · exact Except.noConfusion h
  · split at h
    · exact Except.noConfusion h
    · split at h
      · exact Except.noConfusion h
      · injection h with h
        subst h
        exact ⟨rfl, rfl, rfl⟩

theorem add_contribution_ok_state {c : Address} {t : Int} {s s2 : ContractState}
    {evs : List EventGroup} {d : ZkInputDef}
    (h : add_contribution c t s = Except.ok (s2, evs, d)) : s2 = s := by
  unfold add_contribution at h
  split at h
  · injection h with h
    injection h with h1 h2
    exact h1.symm
  · exact Except.noConfusion h

theorem contribute_tokens_ok_state {c ca : Address} {s : ContractState}
    {zk : ZkState} {a : Nat} {s2 : ContractState} {evs : List EventGroup}
    (h : contribute_tokens c ca s zk a = Except.ok (s2, evs)) : s2 = s := by
  unfold contribute_tokens at h
  split at h
  · split at h
    · injection h with h
      injection h with h1 h2
      exact h1.symm
    · exact Except.noConfusion h
  · exact Except.noConfusion h

theorem contribute_callback_ok_state {ok : Bool} {a : Nat} {s s2 : ContractState}
    (h : contribute_callback ok s a = Except.ok s2) : s2 = s := by
  unfold contribute_callback at h
  split at h
  · injection h with h
    exact h.symm
  · exact Except.noConfusion h

theorem end_campaign_ok_state {c : Address} {s : ContractState} {zk : ZkState}
    {s2 : ContractState} {evs : List EventGroup} {chs : List ZkStateChange}
    (h : end_campaign c s zk = Except.ok (s2, evs, chs)) :
    s2 = { s with
           status := CampaignStatus.Computing
           num_contributors := some (countContributions zk) } ∧
    s.status = CampaignStatus.Active := by
  unfold end_campaign at h
  split at h
  · split at h
    · split at h
      · split at h
        · injection h with h
          injection h with h1 h2
          refine ⟨h1.symm, ?_⟩
          assumption
        · exact Except.noConfusion h
      · exact Except.noConfusion h
    · exact Except.noConfusion h
  · exact Except.noConfusion h

theorem sum_compute_complete_state {s : ContractState} {outs : List Nat}
    {s2 : ContractState} {evs : List EventGroup} {chs : List ZkStateChange}
    (h : sum_compute_complete s outs = (s2, evs, chs)) : s2 = s := by
  unfold sum_compute_complete at h
  injection h with h1 h2
  exact h1.symm

theorem open_variables_ok_state {s : ContractState} {zk : ZkState}
    {opened : List Nat} {s2 : ContractState} {evs : List EventGroup}
    {chs : List ZkStateChange}
    (h : open_variables s zk opened = Except.ok (s2, evs, chs)) :
    s2 = s ∨
      (s2.status = CampaignStatus.Completed ∧
       (s2.is_successful = false → s2.total_raised = none)) := by
  unfold open_variables at h
  split at h
  · exact Except.noConfusion h
  · split at h
    · exact Except.noConfusion h
    · split at h
      · split at h
        · exact Except.noConfusion h
        · injection h with h
          injection h with h1 h2
          right
          refine ⟨by rw [← h1], ?_⟩
          intro hfail
          rw [← h1] at hfail ⊢
          simp only at hfail ⊢
          rw [if_neg]
          intro hle
          rw [decide_eq_true hle] at hfail
          exact Bool.noConfusion hfail
      · split at h
        · split at h
          · exact Except.noConfusion h
          · split at h
            · injection h with h
              injection h with h1 h2
              exact Or.inl h1.symm
            · exact Except.noConfusion h
        · injection h with h
          injection h with h1 h2
          exact Or.inl h1.symm
      · injection h with h
        injection h with h1 h2
        exact Or.inl h1.symm

theorem refund_proof_complete_ok_state {s : ContractState} {outs : List Nat}
    {s2 : ContractState} {evs : List EventGroup} {chs : List ZkStateChange}
    (h : refund_proof_complete s outs = Except.ok (s2, evs, chs)) : s2 = s := by
  unfold refund_proof_complete at h
  split at h
  · exact Except.noConfusion h
  · injection h with h
    injection h with h1 h2
    exact h1.symm

theorem withdraw_funds_ok_state {c : Address} {s s2 : ContractState}
    {evs : List EventGroup}
    (h : withdraw_funds c s = Except.ok (s2, evs)) : s2 = s := by
  unfold withdraw_funds at h
  split at h
  · split at h
    · split at h
      · injection h with h
        injection h with h1 h2
        exact h1.symm
      · exact Except.noConfusion h
    · exact Except.noConfusion h
  · exact Except.noConfusion h

theorem claim_refund_ok_state {c : Address} {s : ContractState} {zk : ZkState}
    {s2 : ContractState} {evs : List EventGroup} {chs : List ZkStateChange}
    (h : claim_refund c s zk = Except.ok (s2, evs, chs)) : s2 = s := by
  unfold claim_refund at h
  split at h
  · split at h
    · split at h
      · split at h
        · exact Except.noConfusion h
        · injection h with h
          injection h with h1 h2
          exact h1.symm
      · exact Except.noConfusion h
    · exact Except.noConfusion h
  · exact Except.noConfusion h

theorem refund_callback_ok_state {ok : Bool} {r : Address} {a : Nat}
    {s s2 : ContractState} (h : refund_callback ok s r a = Except.ok s2) : s2 = s := by
  unfold refund_callback at h
  split at h
  · injection h with h
    exact h.symm
  · exact Except.noConfusion h

/-- Preservation of the privacy property by every single step: an
unsuccessful state never carries a revealed total. -/
theorem step_preserves_privacy {s s2 : ContractState}
    (hinv : s.is_successful = false → s.total_raised = none)
    (hstep : Step s s2) : s2.is_successful = false → s2.total_raised = none := by
  cases hstep with
  | add_contribution_step c t sa sb evs d h =>
    rw [add_contribution_ok_state h]; exact hinv
  | contribute_tokens_step c ca sa zk a sb evs h =>
    rw [contribute_tokens_ok_state h]; exact hinv
  | contribute_callback_step ok a sa sb h =>
    rw [contribute_callback_ok_state h]; exact hinv
  | inputted_variable_step sa v sb h =>
    rw [← h]; exact hinv
  | end_campaign_step c sa zk sb evs chs h =>
    rw [(end_campaign_ok_state h).1]; exact hinv
  | sum_compute_complete_step sa outs sb evs chs h =>
    rw [sum_compute_complete_state h]; exact hinv
  | open_variables_step sa zk opened sb evs chs h =>
    rcases open_variables_ok_state h with h1 | h2
    · rw [h1]; exact hinv
    · exact h2.2
  | refund_proof_complete_step sa outs sb evs chs h =>
    rw [refund_proof_complete_ok_state h]; exact hinv
  | withdraw_funds_step c sa sb evs h =>
    rw [withdraw_funds_ok_state h]; exact hinv
  | claim_refund_step c sa zk sb evs chs h =>
    rw [claim_refund_ok_state h]; exact hinv
  | refund_callback_step ok r a sa sb h =>
    rw [refund_callback_ok_state h]; exact hinv

/-- C2: in every reachable contract state of a failed campaign
(is_successful = false) the revealed total is absent: no entry point or
callback ever sets total_raised to Some while the declassified sum is
below the funding target. -/
theorem C2_failed_campaign_total_stays_hidden (s : ContractState)
    (hreach : Reachable s) (hfail : s.is_successful = false) :
    s.total_raised = none := by
  obtain ⟨c, t, d, tok, target, s0, hinit, hrtg⟩ := hreach
  have h0 := initState_ok_fields hinit
  suffices hInv : ∀ s1, Relation.ReflTransGen Step s0 s1 →
      (s1.is_successful = false → s1.total_raised = none) by
    exact hInv s hrtg hfail
  intro s1 hr
  induction hr with
  | refl => intro _; exact h0.1
  | tail hpre hstep ih => exact step_preserves_privacy ih hstep

/-- C2 witness: the freshly initialized campaign is reachable, has
is_successful = false, and indeed carries no revealed total. -/
theorem C2_failed_campaign_witness : stateActive0.total_raised = none :=
  C2_failed_campaign_total_stays_hidden stateActive0
    ⟨0, "t", "d", 9, 90, stateActive0, rfl, Relation.ReflTransGen.refl⟩ rfl

/-- Numeric rank of a campaign status along Active -> Computing -> Completed. -/
def statusRank : CampaignStatus → Nat
  | CampaignStatus.Active => 0
  | CampaignStatus.Computing => 1
  | CampaignStatus.Completed => 2

theorem statusRank_le_two (c : CampaignStatus) : statusRank c ≤ 2 := by
  cases c <;> simp [statusRank]

/-- C9: status is monotone along every successful step (Active ->
Computing -> Completed, never backward), and each status-gated action
fails with an error - hence no state change in the Except model - when
the campaign is not in the status it requires. -/
theorem C9_status_monotone_and_status_gated :
    (∀ s s2, Step s s2 → statusRank s.status ≤ statusRank s2.status) ∧
    (∀ (c : Address) (t : Int) (s : ContractState),
      s.status ≠ CampaignStatus.Active →
      ∃ m, add_contribution c t s = Except.error m) ∧
    (∀ (c ca : Address) (s : ContractState) (zk : ZkState) (a : Nat),
      s.status ≠ CampaignStatus.Active →
      ∃ m, contribute_tokens c ca s zk a = Except.error m) ∧
    (∀ (c : Address) (s : ContractState) (zk : ZkState),
      s.status ≠ CampaignStatus.Active →
      ∃ m, end_campaign c s zk = Except.error m) ∧
    (∀ (c : Address) (s : ContractState),
      s.status ≠ CampaignStatus.Completed →
      ∃ m, withdraw_funds c s = Except.error m) ∧
    (∀ (c : Address) (s : ContractState) (zk : ZkState),
      s.status ≠ CampaignStatus.Completed →
      ∃ m, claim_refund c s zk = Except.error m) := by
  refine ⟨?_, ?_, ?_, ?_, ?_, ?_⟩
  · intro s s2 hstep
    cases hstep with
    | add_contribution_step c t sa sb evs d h =>
      rw [add_contribution_ok_state h]
    | contribute_tokens_step c ca sa zk a sb evs h =>
      rw [contribute_tokens_ok_state h]
    | contribute_callback_step ok a sa sb h =>
      rw [contribute_callback_ok_state h]
    | inputted_variable_step sa v sb h =>
      rw [← h]
      exact Nat.le.refl
    | end_campaign_step c sa zk sb evs chs h =>
      obtain ⟨h1, h2⟩ := end_campaign_ok_state h
      subst h1
      rw [h2]
      simp [statusRank]
    | sum_compute_complete_step sa outs sb evs chs h =>
      rw [sum_compute_complete_state h]
    | open_variables_step sa zk opened sb evs chs h =>
      rcases open_variables_ok_state h with h1 | h2
      · rw [h1]
      · rw [h2.1]
        exact le_trans (statusRank_le_two _) (by simp [statusRank])
    | refund_proof_complete_step sa outs sb evs chs h =>
      rw [refund_proof_complete_ok_state h]
    | withdraw_funds_step c sa sb evs h =>
      rw [withdraw_funds_ok_state h]
    | claim_refund_step c sa zk sb evs chs h =>
      rw [claim_refund_ok_state h]
    | refund_callback_step ok r a sa sb h =>
      rw [refund_callback_ok_state h]
  · intro c t s hst
    unfold add_contribution
    rw [if_neg hst]
    exact ⟨_, rfl⟩
  · intro c ca s zk a hst
    unfold contribute_tokens
    rw [if_neg hst]
    exact ⟨_, rfl⟩
  · intro c s zk hst
    unfold end_campaign
    by_cases hc : c = s.owner
    · rw [if_pos hc, if_neg hst]
      exact ⟨_, rfl⟩
    · rw [if_neg hc]
      exact ⟨_, rfl⟩
  · intro c s hst
    unfold withdraw_funds
    by_cases hc : c = s.owner
    · rw [if_pos hc, if_neg hst]
      exact ⟨_, rfl⟩
    · rw [if_neg hc]
      exact ⟨_, rfl⟩
  · intro c s zk hst
    unfold claim_refund
    rw [if_neg hst]
    exact ⟨_, rfl⟩

/-- C9 witness: the statement applied to a concrete step (a variable
inputted while Active) and to each gated action in a concrete wrong
status. -/
theorem C9_status_monotone_witness :
    statusRank stateActive0.status ≤ statusRank stateActive0.status ∧
    (∃ m, add_contribution 1 0 stateComputing0 = Except.error m) ∧
    (∃ m, contribute_tokens 1 2 stateComputing0 zkEmptyWaiting 1 = Except.error m) ∧
    (∃ m, end_campaign 0 stateComputing0 zkEmptyWaiting = Except.error m) ∧
    (∃ m, withdraw_funds 0 stateActive0 = Except.error m) ∧
    (∃ m, claim_refund 0 stateActive0 zkEmptyWaiting = Except.error m) :=
  ⟨C9_status_monotone_and_status_gated.1 stateActive0 stateActive0
      (Step.inputted_variable_step stateActive0 0 stateActive0 rfl),
   C9_status_monotone_and_status_gated.2.1 1 0 stateComputing0 (by decide),
   C9_status_monotone_and_status_gated.2.2.1 1 2 stateComputing0 zkEmptyWaiting 1 (by decide),
   C9_status_monotone_and_status_gated.2.2.2.1 0 stateComputing0 zkEmptyWaiting (by decide),
   C9_status_monotone_and_status_gated.2.2.2.2.1 0 stateActive0 (by decide),
   C9_status_monotone_and_status_gated.2.2.2.2.2 0 stateActive0 zkEmptyWaiting (by decide)⟩

/-- C10: claim_refund performs no check that the caller contributed: any
caller succeeds whenever the campaign is Completed and unsuccessful, the
engine is Waiting, and at least one Contribution variable exists, and
the refund computation metadata records the caller as owner; the
opened-variable refund branch then sends the token transfer to the
address stored in the RefundProof metadata. -/
theorem C10_claim_refund_without_contributor_check :
    (∀ (caller : Address) (s : ContractState) (zk : ZkState),
      s.status = CampaignStatus.Completed → s.is_successful = false →
      zk.calculation_state = CalculationStatus.Waiting →
      0 < countContributions zk →
      claim_refund caller s zk =
        Except.ok (s, [],
          [ZkStateChange.startComputation 0x62
            [SecretVarType.RefundProof caller] (some 0x43)])) ∧
    (∀ (s : ContractState) (zk : ZkState) (vid : Nat) (o : Address) (bytes : List Nat),
      s.status = CampaignStatus.Completed → s.is_successful = false →
      zk.get_variable vid = some { metadata := SecretVarType.RefundProof o, data := some bytes } →
      bytes.length = 4 → 0 < leBytesToNat bytes →
      open_variables s zk [vid] =
        Except.ok (s,
          [{ calls := [{ dest := s.token_address, shortname := 0x01,
                         args := [CallArg.addr o,
                                  CallArg.amountArg (leBytesToNat bytes * 1000000000000)] }],
             callback := some { shortname := 0x44,
                                args := [CallArg.addr o,
                                         CallArg.amountArg (leBytesToNat bytes * 1000000000000)] } }],
          [])) := by
  constructor
  · intro caller s zk h1 h2 h3 h4
    unfold claim_refund
    rw [if_pos h1, if_pos h2, if_pos h3, if_neg ?_]
    intro hemp
    unfold countContributions at h4
    cases hfl : zk.secret_variables.filter (fun p => isContribution p.2.metadata) with
    | nil =>
      rw [hfl] at h4
      simp at h4
    | cons hd tl =>
      rw [hfl] at hemp
      exact Bool.noConfusion hemp
  · intro s zk vid o bytes h1 h2 hv hlen hpos
    unfold open_variables
    simp only [hv, h1, h2]
    simp [read_variable_u32_le, hlen, hpos]

/-- C10 witness: caller 7, who owns no contribution, successfully starts
a refund computation on the concrete failed campaign, and the refund
branch pays the metadata owner 3 the decoded amount times 10^12. -/
theorem C10_claim_refund_witness :
    claim_refund 7 stateFailed0 zkOneContribution =
      Except.ok (stateFailed0, [],
        [ZkStateChange.startComputation 0x62 [SecretVarType.RefundProof 7] (some 0x43)]) ∧
    open_variables stateFailed0 zkRefundVar [2] =
      Except.ok (stateFailed0,
        [{ calls := [{ dest := 9, shortname := 0x01,
                       args := [CallArg.addr 3, CallArg.amountArg 5000000000000] }],
           callback := some { shortname := 0x44,
                              args := [CallArg.addr 3, CallArg.amountArg 5000000000000] } }],
        []) :=
  ⟨C10_claim_refund_without_contributor_check.1 7 stateFailed0 zkOneContribution rfl rfl rfl
      (by decide),
   C10_claim_refund_without_contributor_check.2 stateFailed0 zkRefundVar 2 3 [5, 0, 0, 0]
      rfl rfl rfl rfl (by decide)⟩
